import Mathlib

/-!
Shallow embedding of `src/orthoreader/early-church-fathers-agent/src/agents/search_agent.py`.

The external collaborators (HTTP session, BeautifulSoup) are modelled by a
fetcher function `String → Except String Page`, where a `Page` carries the
plain text extracted from the markup (`soup.get_text()`) and the sequence of
anchors having an href (`soup.find_all('a', href=True)`), in document order.
Python string operations are modelled over character lists:
`str.strip` as `stripStr`, `str.lower` as `lowerStr`, `str.split()` (whitespace
word split) as `wordsAux`/`wordCount`, and the `in` substring operator as
`hasSubstr`.
-/

/-- Does `s` start with the pattern `p`?  (Both as character lists.) -/
def startsWithSeq : List Char → List Char → Bool
  | _, [] => true
  | [], _ :: _ => false
  | c :: cs, p :: ps => p == c && startsWithSeq cs ps

/-- Does the pattern `p` occur contiguously inside `s`?  Models Python `p in s`. -/
def containsSeq : List Char → List Char → Bool
  | [], p => startsWithSeq [] p
  | c :: cs, p => startsWithSeq (c :: cs) p || containsSeq cs p

/-- Python `pat in s` on strings. -/
def hasSubstr (s pat : String) : Bool :=
  containsSeq s.toList pat.toList

/-- Python `s.lower()`. -/
def lowerStr (s : String) : String :=
  ⟨s.toList.map Char.toLower⟩

/-- Python `s.strip()`: drop leading and trailing whitespace. -/
def stripStr (s : String) : String :=
  ⟨((s.toList.dropWhile Char.isWhitespace).reverse.dropWhile Char.isWhitespace).reverse⟩

/-- Python `s.split()`: split on whitespace runs, dropping empty tokens.
`acc` holds the characters of the word currently being read, reversed. -/
def wordsAux : List Char → List Char → List (List Char)
  | [], acc => if acc.isEmpty then [] else [acc.reverse]
  | c :: cs, acc =>
    if c.isWhitespace then
      if acc.isEmpty then wordsAux cs []
      else acc.reverse :: wordsAux cs []
    else wordsAux cs (c :: acc)

/-- `len(s.split())` in the Python source. -/
def wordCount (s : String) : Nat :=
  (wordsAux s.toList []).length

/-- An anchor extracted from markup: visible text together with its href.
Only anchors that do have an href reach the strategy layer
(`soup.find_all('a', href=True)`). -/
structure Anchor where
  text : String
  href : String
  deriving DecidableEq

/-- The observable content of a fetched page: the extracted plain text and
the anchors in document order of appearance. -/
structure Page where
  text : String
  anchors : List Anchor
  deriving DecidableEq

/-- A discovered work record, as built by the search strategies. -/
structure WorkCandidate where
  title : String
  url : String
  source : String
  author : String
  deriving DecidableEq

/-- The quality assessment returned by `validate_source_quality`. -/
structure QualityReport where
  quality_score : Int
  word_count : Nat
  issues : List String
  is_valid : Bool
  deriving DecidableEq

/-- A fetcher resolves a URL to a page, or fails with a cause message
(network error / exception text).  It models `self.session.get` composed
with the markup parsing. -/
def Fetcher : Type := String → Except String Page

def ccel_base_url : String := "https://www.ccel.org"

def ccel_search_url : String := "https://www.ccel.org/search"

/-- The fixed author → path table of the `ccel` source. -/
def ccel_authors : List (String × String) :=
  [("St John Chrysostom", "/ccel/chrysostom"),
   ("St Augustine", "/ccel/augustine"),
   ("St Basil", "/ccel/basil"),
   ("St Gregory", "/ccel/gregory")]

def newadvent_base_url : String := "https://www.newadvent.org"

def newadvent_search_url : String := "https://www.newadvent.org/fathers"

/-- `self.sources["ccel"]["authors"].get(author_name)`. -/
def ccel_author_lookup (author_name : String) : Option String :=
  (ccel_authors.find? (fun p => p.1 == author_name)).map (fun p => p.2)

/-- The per-anchor emission step of `_search_ccel`:
`if href and '/ccel/' in href and href != author_path:` then take the
stripped text as title and emit when it is non-empty. -/
def ccelEmit (author_name author_path : String) (link : Anchor) : Option WorkCandidate :=
  if link.href ≠ "" ∧ hasSubstr link.href "/ccel/" = true ∧ link.href ≠ author_path then
    let title := stripStr link.text
    if title ≠ "" then
      some { title := title, url := ccel_base_url ++ link.href,
             source := "ccel", author := author_name }
    else none
  else none

/-- `SearchAgent._search_ccel`: look the author up in the fixed table, return
`[]` when absent; otherwise fetch the author page and emit one candidate per
anchor passing the filter, in document order.  A fetch failure is swallowed
and yields `[]`. -/
def search_ccel (fetch : Fetcher) (author_name : String) : List WorkCandidate :=
  match ccel_author_lookup author_name with
  | none => []
  | some author_path =>
    match fetch (ccel_base_url ++ author_path) with
    | .error _ => []
    | .ok page => page.anchors.filterMap (ccelEmit author_name author_path)

/-- The per-anchor emission step of `_search_newadvent`: the author name must
occur case-insensitively in the anchor text, and the href must contain
`/fathers/` (and be non-empty, per the `if href` truthiness test). -/
def newadventEmit (author_name : String) (link : Anchor) : Option WorkCandidate :=
  if hasSubstr (lowerStr link.text) (lowerStr author_name) = true then
    if link.href ≠ "" ∧ hasSubstr link.href "/fathers/" = true then
      some { title := stripStr link.text, url := newadvent_base_url ++ link.href,
             source := "newadvent", author := author_name }
    else none
  else none

/-- `SearchAgent._search_newadvent`: fetch the single shared listing page and
emit matching anchors in document order; a fetch failure yields `[]`. -/
def search_newadvent (fetch : Fetcher) (author_name : String) : List WorkCandidate :=
  match fetch newadvent_search_url with
  | .error _ => []
  | .ok page => page.anchors.filterMap (newadventEmit author_name)

/-- `SearchAgent.find_works_by_author`: search ccel when the author is in the
ccel table, then always search newadvent, extending the same list. -/
def find_works_by_author (fetch : Fetcher) (author_name : String) : List WorkCandidate :=
  let works : List WorkCandidate := []
  let works :=
    if (ccel_author_lookup author_name).isSome then works ++ search_ccel fetch author_name
    else works
  works ++ search_newadvent fetch author_name

/-- The success branch of `validate_source_quality`, applied to the text
extracted from the fetched page.  The running `(quality_score, issues)` state
mirrors the Python mutation sequence. -/
def assess_text (text_content : String) : QualityReport :=
  let word_count := wordCount text_content
  let state0 : Int × List String := (0, [])
  let state1 :=
    if word_count < 100 then (state0.1 - 2, state0.2 ++ ["Very short text"])
    else if word_count > 10000 then (state0.1 + 1, state0.2)
    else state0
  let state2 :=
    if hasSubstr (lowerStr text_content) "page not found" = true then
      (state1.1 - 3, state1.2 ++ ["Page not found"])
    else state1
  let state3 :=
    if hasSubstr (lowerStr text_content) "error" = true then
      (state2.1 - 2, state2.2 ++ ["Error page"])
    else state2
  { quality_score := state3.1, word_count := word_count,
    issues := state3.2, is_valid := decide (state3.1 ≥ 0) }

/-- `SearchAgent.validate_source_quality`: on fetch failure return the fixed
failure report with the cause interpolated; on success score the text. -/
def validate_source_quality (fetch : Fetcher) (url : String) : QualityReport :=
  match fetch url with
  | .ok page => assess_text page.text
  | .error e =>
    { quality_score := -1, word_count := 0,
      issues := ["Error accessing URL: " ++ e], is_valid := false }

/-!
Spec-side formulation of the scoring rules (§4.5 of the spec): the score is
the sum of three independent adjustments and the issue list is the
concatenation of the corresponding issue entries, in check order.  These
definitions follow the spec's words and are compared with `assess_text`,
which was translated from the source.
-/

/-- Spec §4.5: word-count adjustment, an if/else-if branch. -/
def spec_word_score (wc : Nat) : Int :=
  if wc < 100 then -2 else if wc > 10000 then 1 else 0

/-- Spec §4.5: issue recorded by the word-count branch. -/
def spec_word_issues (wc : Nat) : List String :=
  if wc < 100 then ["Very short text"] else []

/-- Spec §4.5: the case-insensitive "page not found" check. -/
def spec_pnf (text : String) : Bool := hasSubstr (lowerStr text) "page not found"

/-- Spec §4.5: the case-insensitive "error" check. -/
def spec_err (text : String) : Bool := hasSubstr (lowerStr text) "error"

/-- Spec §4.5: the final score as a sum of independent adjustments. -/
def spec_score (text : String) : Int :=
  spec_word_score (wordCount text)
    + (if spec_pnf text then -3 else 0)
    + (if spec_err text then -2 else 0)

/-- Spec §4.5: the issues in check order. -/
def spec_issues (text : String) : List String :=
  spec_word_issues (wordCount text)
    ++ (if spec_pnf text then ["Page not found"] else [])
    ++ (if spec_err text then ["Error page"] else [])

/-- Spec §4.5: the full report as the spec describes it. -/
def spec_report (text : String) : QualityReport :=
  { quality_score := spec_score text, word_count := wordCount text,
    issues := spec_issues text, is_valid := decide (spec_score text ≥ 0) }

/-! Concrete fixtures used by the witness theorems. -/

/-- `n` repetitions of the two characters `w`, space. -/
def repChars : Nat → List Char
  | 0 => []
  | n + 1 => 'w' :: ' ' :: repChars n

/-- A text of exactly `n` whitespace-separated words, none of which contains
a flagged substring. -/
def repText (n : Nat) : String := ⟨repChars n⟩

/-- A text with 50 words containing the substring "Error 404". -/
def sample50 : String := "Error 404 " ++ repText 48

/-- A text with 500 words containing the substring "page not found". -/
def sample500 : String := "page not found " ++ repText 497

/-- A fetcher whose every fetch fails. -/
def failFetch : Fetcher := fun _ => .error "timeout"

/-- A small page with one work anchor and one navigation anchor. -/
def pageA : Page :=
  { text := "homilies",
    anchors := [{ text := " Homilies on Genesis ", href := "/ccel/chrysostom/genesis" },
                { text := "Home", href := "/index" }] }

/-- A fetcher that returns `pageA` for every URL. -/
def okFetch : Fetcher := fun _ => .ok pageA

/-- A fetcher where only the newadvent listing page is reachable, carrying
three matching anchors; every other fetch fails. -/
def mixedFetch : Fetcher := fun url =>
  if url = newadvent_search_url then
    .ok { text := "fathers",
          anchors := [{ text := "St Augustine: Confessions", href := "/fathers/1101.htm" },
                      { text := "St Augustine: City of God", href := "/fathers/1201.htm" },
                      { text := "St Augustine: On Christian Doctrine", href := "/fathers/1202.htm" }] }
  else .error "connection refused"

/-- A fetcher where the newadvent listing page is unreachable and every other
fetch succeeds with `pageA`. -/
def mixedFetch2 : Fetcher := fun url =>
  if url = newadvent_search_url then .error "connection refused" else .ok pageA

/-- A one-anchor ccel author page. -/
def basilPage : Page :=
  { text := "works",
    anchors := [{ text := " On the Holy Spirit ", href := "/ccel/basil/holy_spirit" }] }

/-- A fetcher that returns `basilPage` for every URL. -/
def basilFetch : Fetcher := fun _ => .ok basilPage

/-- The candidate `_search_ccel` emits from `basilPage` for St Basil. -/
def basilCand : WorkCandidate :=
  { title := "On the Holy Spirit", url := "https://www.ccel.org/ccel/basil/holy_spirit",
    source := "ccel", author := "St Basil" }

/-! Helper lemmas shared by the claim theorems. -/

/-- The sequential scoring of `assess_text` equals the spec's sum-of-adjustments
formulation, for every text. -/
theorem assess_text_eq_spec (text : String) : assess_text text = spec_report text := by
  unfold assess_text spec_report spec_score spec_issues spec_word_score spec_word_issues spec_pnf spec_err
  dsimp only
  split <;> split <;> split <;> (try split) <;> simp_all

/-- `repText n` splits into exactly `n` words. -/
theorem wordsAux_repChars (n : Nat) : wordsAux (repChars n) [] = List.replicate n ['w'] := by
  induction n with
  | zero => rfl
  | succ n ih =>
    have hw : ('w'.isWhitespace) = false := by decide
    have hs : ((' ').isWhitespace) = true := by decide
    simp [repChars, wordsAux, hw, hs, ih, List.replicate_succ]

/-- Lowercasing leaves `repChars n` unchanged. -/
theorem map_toLower_repChars (n : Nat) : (repChars n).map Char.toLower = repChars n := by
  induction n with
  | zero => rfl
  | succ n ih =>
    have h1 : Char.toLower 'w' = 'w' := by decide
    have h2 : Char.toLower ' ' = ' ' := by decide
    simp [repChars, ih, h1, h2]

/-- A pattern starting with a character other than `w` and space never occurs
in `repChars n`. -/
theorem containsSeq_repChars (c : Char) (ps : List Char)
    (h1 : (c == 'w') = false) (h2 : (c == ' ') = false) :
    ∀ n, containsSeq (repChars n) (c :: ps) = false := by
  intro n
  induction n with
  | zero => simp [repChars, containsSeq, startsWithSeq]
  | succ n ih => simp [repChars, containsSeq, startsWithSeq, h1, h2, ih]

/-- Assessing a clean 15000-word text yields score 1, no issues, valid. -/
theorem assess_repText_15000 :
    assess_text (repText 15000) =
      { quality_score := 1, word_count := 15000, issues := [], is_valid := true } := by
  have hwc : wordCount (repText 15000) = 15000 := by
    show (wordsAux (repChars 15000) []).length = 15000
    rw [wordsAux_repChars, List.length_replicate]
  have hlow : lowerStr (repText 15000) = repText 15000 := by
    show (⟨(repChars 15000).map Char.toLower⟩ : String) = ⟨repChars 15000⟩
    rw [map_toLower_repChars]
  have hpnf : hasSubstr (lowerStr (repText 15000)) "page not found" = false := by
    rw [hlow]
    show containsSeq (repChars 15000) ("page not found".toList) = false
    have h : "page not found".toList = 'p' :: "age not found".toList := rfl
    rw [h]
    exact containsSeq_repChars 'p' _ (by decide) (by decide) 15000
  have herr : hasSubstr (lowerStr (repText 15000)) "error" = false := by
    rw [hlow]
    show containsSeq (repChars 15000) ("error".toList) = false
    have h : "error".toList = 'e' :: "rror".toList := rfl
    rw [h]
    exact containsSeq_repChars 'e' _ (by decide) (by decide) 15000
  rw [assess_text_eq_spec]
  unfold spec_report spec_score spec_issues spec_word_score spec_word_issues spec_pnf spec_err
  rw [hwc, hpnf, herr]
  norm_num

/-- The aggregator output is always the ccel output followed by the newadvent
output, also when the ccel branch is skipped for an unknown author. -/
theorem find_works_eq_append (fetch : Fetcher) (author_name : String) :
    find_works_by_author fetch author_name =
      search_ccel fetch author_name ++ search_newadvent fetch author_name := by
  unfold find_works_by_author
  cases h : ccel_author_lookup author_name with
  | some p => simp [h]
  | none =>
    have h2 : search_ccel fetch author_name = [] := by
      unfold search_ccel
      rw [h]
    simp [h, h2]

/-- `_search_ccel` on an author absent from the table. -/
theorem search_ccel_none (fetch : Fetcher) (author_name : String)
    (hl : ccel_author_lookup author_name = none) :
    search_ccel fetch author_name = [] := by
  unfold search_ccel
  rw [hl]

/-- `_search_ccel` when the author page fetch fails. -/
theorem search_ccel_err (fetch : Fetcher) (author_name author_path e : String)
    (hl : ccel_author_lookup author_name = some author_path)
    (hf : fetch (ccel_base_url ++ author_path) = .error e) :
    search_ccel fetch author_name = [] := by
  unfold search_ccel
  rw [hl]
  dsimp only
  rw [hf]

/-- `_search_ccel` on a successful fetch of the author page. -/
theorem search_ccel_ok (fetch : Fetcher) (author_name author_path : String) (page : Page)
    (hl : ccel_author_lookup author_name = some author_path)
    (hf : fetch (ccel_base_url ++ author_path) = .ok page) :
    search_ccel fetch author_name =
      page.anchors.filterMap (ccelEmit author_name author_path) := by
  unfold search_ccel
  rw [hl]
  dsimp only
  rw [hf]

/-- `_search_newadvent` when the listing page fetch fails. -/
theorem search_newadvent_err (fetch : Fetcher) (author_name e : String)
    (hf : fetch newadvent_search_url = .error e) :
    search_newadvent fetch author_name = [] := by
  unfold search_newadvent
  rw [hf]

/-- `_search_newadvent` on a successful fetch of the listing page. -/
theorem search_newadvent_ok (fetch : Fetcher) (author_name : String) (page : Page)
    (hf : fetch newadvent_search_url = .ok page) :
    search_newadvent fetch author_name =
      page.anchors.filterMap (newadventEmit author_name) := by
  unfold search_newadvent
  rw [hf]

/-- Every candidate `ccelEmit` emits carries the base URL + href. -/
theorem ccelEmit_url (author_name author_path : String) (link : Anchor) (c : WorkCandidate)
    (h : ccelEmit author_name author_path link = some c) :
    c.url = ccel_base_url ++ link.href := by
  unfold ccelEmit at h
  split_ifs at h <;> simp_all
  rw [← h.2]

/-- Every candidate `newadventEmit` emits carries the base URL + href. -/
theorem newadventEmit_url (author_name : String) (link : Anchor) (c : WorkCandidate)
    (h : newadventEmit author_name link = some c) :
    c.url = newadvent_base_url ++ link.href := by
  unfold newadventEmit at h
  split_ifs at h <;> simp_all
  rw [← h]

/-- The assessed score in spec form. -/
theorem assess_score_eq (text : String) :
    (assess_text text).quality_score = spec_score text := by
  rw [assess_text_eq_spec]
  rfl

/-- The spec-form score is always between -7 and 1. -/
theorem spec_score_bounds (text : String) :
    -7 ≤ spec_score text ∧ spec_score text ≤ 1 := by
  unfold spec_score spec_word_score spec_pnf spec_err
  split_ifs <;> omega

/-- C1: For every input URL, the QualityReport returned by the quality
assessor satisfies is_valid == (quality_score >= 0), on the success path
(where is_valid is computed from the final score) and on the fetch-failure
path (quality_score -1, is_valid false). -/
theorem C1_is_valid_iff (fetch : Fetcher) (url : String) :
    ((validate_source_quality fetch url).is_valid = true) ↔
      (0 ≤ (validate_source_quality fetch url).quality_score) := by
  unfold validate_source_quality
  cases h : fetch url with
  | error e => simp
  | ok page =>
    dsimp only
    rw [assess_text_eq_spec]
    simp [spec_report]

/-- C2: For every successfully fetched text, the score starts at 0 and equals
the sum of the word-count adjustment (-2 if under 100, else +1 if over 10000,
else 0), -3 for a case-insensitive "page not found", and -2 for a
case-insensitive "error"; the substring checks are independent of each other
and of the word-count branch, and issues are recorded in check order.  A
50-word text containing "Error 404" yields issues
["Very short text", "Error page"], score -4, invalid; a clean 15000-word text
yields score 1, no issues, valid; a 500-word text containing "page not found"
yields issues ["Page not found"], score -3, invalid. -/
theorem C2_scoring :
    (∀ text, assess_text text = spec_report text) ∧
    assess_text sample50 =
      { quality_score := -4, word_count := 50,
        issues := ["Very short text", "Error page"], is_valid := false } ∧
    assess_text (repText 15000) =
      { quality_score := 1, word_count := 15000, issues := [], is_valid := true } ∧
    assess_text sample500 =
      { quality_score := -3, word_count := 500,
        issues := ["Page not found"], is_valid := false } :=
  ⟨assess_text_eq_spec, by decide, assess_repText_15000, by
    set_option maxRecDepth 4000 in decide⟩

/-- C3: For every URL whose fetch fails, the assessor returns exactly the
report with quality_score -1, word_count 0, the single issue
"Error accessing URL: cause", and is_valid false; being a total function it
never raises to the caller. -/
theorem C3_fetch_failure (fetch : Fetcher) (url e : String)
    (h : fetch url = .error e) :
    validate_source_quality fetch url =
      { quality_score := -1, word_count := 0,
        issues := ["Error accessing URL: " ++ e], is_valid := false } := by
  unfold validate_source_quality
  rw [h]

/-- Witness for C3 at a concrete failing fetcher. -/
theorem C3_witness :
    validate_source_quality failFetch "https://www.ccel.org/ccel/basil" =
      { quality_score := -1, word_count := 0,
        issues := ["Error accessing URL: timeout"], is_valid := false } :=
  C3_fetch_failure failFetch "https://www.ccel.org/ccel/basil" "timeout" rfl

/-- C4: For every author name absent from the ccel author table, the indexed
strategy returns exactly the empty sequence for every fetcher, and its result
does not depend on the fetcher at all (no fetch is attempted); absence is a
normal outcome, not a failure. -/
theorem C4_unknown_author (author_name : String)
    (h : ccel_author_lookup author_name = none) :
    (∀ fetch : Fetcher, search_ccel fetch author_name = []) ∧
    (∀ fetch fetch2 : Fetcher,
      search_ccel fetch author_name = search_ccel fetch2 author_name) := by
  constructor
  · intro fetch
    unfold search_ccel
    rw [h]
  · intro fetch fetch2
    unfold search_ccel
    rw [h]

/-- Witness for C4 at the unmapped author name "Origen". -/
theorem C4_witness :
    ccel_author_lookup "Origen" = none ∧
    search_ccel (fun _ => .error "unreachable") "Origen" = [] := by
  refine ⟨by decide, ?_⟩
  exact (C4_unknown_author "Origen" (by decide)).1 (fun _ => .error "unreachable")

/-- C5: For every author name, the aggregator returns exactly the ccel
strategy output followed by the newadvent strategy output (registry order),
and on a successful fetch each strategy's output is the filterMap of its
emission step over the page anchors, preserving document order; no
deduplication or reordering. -/
theorem C5_aggregator (fetch : Fetcher) (author_name : String) :
    (find_works_by_author fetch author_name =
      search_ccel fetch author_name ++ search_newadvent fetch author_name) ∧
    (∀ author_path page, ccel_author_lookup author_name = some author_path →
      fetch (ccel_base_url ++ author_path) = .ok page →
      search_ccel fetch author_name =
        page.anchors.filterMap (ccelEmit author_name author_path)) ∧
    (∀ page, fetch newadvent_search_url = .ok page →
      search_newadvent fetch author_name =
        page.anchors.filterMap (newadventEmit author_name)) :=
  ⟨find_works_eq_append fetch author_name,
   fun author_path page hl hf => search_ccel_ok fetch author_name author_path page hl hf,
   fun page hf => search_newadvent_ok fetch author_name page hf⟩

/-- Witness for C5 at a concrete fetcher and author. -/
theorem C5_witness :
    search_ccel okFetch "St Augustine" =
      pageA.anchors.filterMap (ccelEmit "St Augustine" "/ccel/augustine") ∧
    search_newadvent okFetch "St Augustine" =
      pageA.anchors.filterMap (newadventEmit "St Augustine") :=
  ⟨(C5_aggregator okFetch "St Augustine").2.1 "/ccel/augustine" pageA (by decide) rfl,
   (C5_aggregator okFetch "St Augustine").2.2 pageA rfl⟩

/-- C6: A failing strategy never prevents the other from contributing: when
the ccel fetch fails the aggregate is exactly the newadvent output, and when
the newadvent fetch fails the aggregate is exactly the ccel output; the
caller always receives a sequence, never a raised fault. -/
theorem C6_failure_isolated (fetch : Fetcher) (author_name : String) :
    (∀ author_path e, ccel_author_lookup author_name = some author_path →
      fetch (ccel_base_url ++ author_path) = .error e →
      find_works_by_author fetch author_name = search_newadvent fetch author_name) ∧
    (∀ e, fetch newadvent_search_url = .error e →
      find_works_by_author fetch author_name = search_ccel fetch author_name) := by
  constructor
  · intro author_path e hl hf
    rw [find_works_eq_append, search_ccel_err fetch author_name author_path e hl hf]
    rfl
  · intro e hf
    rw [find_works_eq_append, search_newadvent_err fetch author_name e hf,
      List.append_nil]

/-- Witness for C6: the ccel fetch fails while newadvent succeeds with three
candidates, giving an aggregate of length 3; and the symmetric case. -/
theorem C6_witness :
    (find_works_by_author mixedFetch "St Augustine").length = 3 ∧
    find_works_by_author mixedFetch2 "St Augustine" =
      search_ccel mixedFetch2 "St Augustine" := by
  constructor
  · rw [(C6_failure_isolated mixedFetch "St Augustine").1 "/ccel/augustine"
        "connection refused" (by decide) rfl]
    decide
  · exact (C6_failure_isolated mixedFetch2 "St Augustine").2 "connection refused" rfl

/-- C7: In the indexed strategy a candidate is emitted for an anchor exactly
when the href contains "/ccel/", differs from the author's own index path,
and the trimmed text is non-empty; the candidate carries the trimmed title,
base URL + href, source "ccel" and the input author.  An anchor whose href
equals the author's own index path is never emitted. -/
theorem C7_ccel_emission (author_name author_path : String) (link : Anchor) :
    (ccelEmit author_name author_path link =
      if hasSubstr link.href "/ccel/" = true ∧ link.href ≠ author_path ∧
          stripStr link.text ≠ "" then
        some { title := stripStr link.text, url := ccel_base_url ++ link.href,
               source := "ccel", author := author_name }
      else none) ∧
    (∀ t : String,
      ccelEmit author_name author_path { text := t, href := author_path } = none) := by
  constructor
  · unfold ccelEmit
    by_cases h0 : link.href = ""
    · have hm : hasSubstr "" "/ccel/" = false := by decide
      simp [h0, hm]
    · split_ifs with h1 h2 h3 <;> simp_all
  · intro t
    simp [ccelEmit]

/-- C8: In the full-scan strategy a candidate is emitted for an anchor exactly
when the author name occurs case-insensitively in the anchor text and the
href contains "/fathers/"; the candidate carries the trimmed title, base URL
+ href, source "newadvent" and the input author. -/
theorem C8_newadvent_emission (author_name : String) (link : Anchor) :
    newadventEmit author_name link =
      if hasSubstr (lowerStr link.text) (lowerStr author_name) = true ∧
          hasSubstr link.href "/fathers/" = true then
        some { title := stripStr link.text, url := newadvent_base_url ++ link.href,
               source := "newadvent", author := author_name }
      else none := by
  unfold newadventEmit
  by_cases h0 : link.href = ""
  · have hm : hasSubstr link.href "/fathers/" = false := by rw [h0]; decide
    split_ifs <;> simp_all
  · split_ifs <;> simp_all

/-- C9: Every candidate emitted by either strategy after a successful fetch
has url equal to the source's base URL concatenated with the href of an
anchor of the fetched page. -/
theorem C9_url_absolute (fetch : Fetcher) (author_name : String) (c : WorkCandidate) :
    (c ∈ search_ccel fetch author_name →
      ∃ author_path page link, ccel_author_lookup author_name = some author_path ∧
        fetch (ccel_base_url ++ author_path) = .ok page ∧ link ∈ page.anchors ∧
        c.url = ccel_base_url ++ link.href) ∧
    (c ∈ search_newadvent fetch author_name →
      ∃ page link, fetch newadvent_search_url = .ok page ∧ link ∈ page.anchors ∧
        c.url = newadvent_base_url ++ link.href) := by
  constructor
  · intro hc
    cases hl : ccel_author_lookup author_name with
    | none =>
      rw [search_ccel_none fetch author_name hl] at hc
      simp at hc
    | some author_path =>
      cases hf : fetch (ccel_base_url ++ author_path) with
      | error e =>
        rw [search_ccel_err fetch author_name author_path e hl hf] at hc
        simp at hc
      | ok page =>
        rw [search_ccel_ok fetch author_name author_path page hl hf] at hc
        simp only [List.mem_filterMap] at hc
        obtain ⟨link, hmem, hemit⟩ := hc
        exact ⟨author_path, page, link, rfl, hf, hmem,
          ccelEmit_url author_name author_path link c hemit⟩
  · intro hc
    cases hf : fetch newadvent_search_url with
    | error e =>
      rw [search_newadvent_err fetch author_name e hf] at hc
      simp at hc
    | ok page =>
      rw [search_newadvent_ok fetch author_name page hf] at hc
      simp only [List.mem_filterMap] at hc
      obtain ⟨link, hmem, hemit⟩ := hc
      exact ⟨page, link, rfl, hmem, newadventEmit_url author_name link c hemit⟩

/-- Witness for C9 at a concrete fetcher and emitted candidate. -/
theorem C9_witness :
    ∃ author_path page link, ccel_author_lookup "St Basil" = some author_path ∧
      basilFetch (ccel_base_url ++ author_path) = .ok page ∧ link ∈ page.anchors ∧
      basilCand.url = ccel_base_url ++ link.href :=
  (C9_url_absolute basilFetch "St Basil" basilCand).1 (by decide)

/-- C10: The quality score is bounded: on a successful fetch it lies in
[-7, 1], it equals 1 only when the word count exceeds 10000 and no flagged
substring occurs, validity implies a score of 0 or 1, on fetch failure the
score is exactly -1, and the score never exceeds 1 on any input. -/
theorem C10_score_bounds :
    (∀ text, -7 ≤ (assess_text text).quality_score ∧
      (assess_text text).quality_score ≤ 1) ∧
    (∀ text, (assess_text text).is_valid = true →
      (assess_text text).quality_score = 0 ∨ (assess_text text).quality_score = 1) ∧
    (∀ text, (assess_text text).quality_score = 1 →
      10000 < wordCount text ∧ hasSubstr (lowerStr text) "page not found" = false ∧
      hasSubstr (lowerStr text) "error" = false) ∧
    (∀ (fetch : Fetcher) url e, fetch url = .error e →
      (validate_source_quality fetch url).quality_score = -1) ∧
    (∀ (fetch : Fetcher) url, (validate_source_quality fetch url).quality_score ≤ 1) := by
  refine ⟨?_, ?_, ?_, ?_, ?_⟩
  · intro text
    rw [assess_score_eq]
    exact spec_score_bounds text
  · intro text h
    rw [assess_text_eq_spec] at h
    rw [assess_score_eq]
    unfold spec_report at h
    dsimp only at h
    rw [decide_eq_true_eq] at h
    unfold spec_score spec_word_score spec_pnf spec_err at h ⊢
    split_ifs at h ⊢ <;> omega
  · intro text h
    rw [assess_score_eq] at h
    unfold spec_score spec_word_score spec_pnf spec_err at h
    split_ifs at h <;> simp_all
  · intro fetch url e hf
    unfold validate_source_quality
    rw [hf]
  · intro fetch url
    unfold validate_source_quality
    cases hf : fetch url with
    | error e => norm_num
    | ok page =>
      dsimp only
      rw [assess_score_eq]
      exact (spec_score_bounds page.text).2

/-- Witness for C10 at concrete inputs for each hypothesis. -/
theorem C10_witness :
    ((assess_text (repText 100)).quality_score = 0 ∨
      (assess_text (repText 100)).quality_score = 1) ∧
    (10000 < wordCount (repText 15000) ∧
      hasSubstr (lowerStr (repText 15000)) "page not found" = false ∧
      hasSubstr (lowerStr (repText 15000)) "error" = false) ∧
    (validate_source_quality failFetch "https://www.newadvent.org/fathers").quality_score = -1 :=
  ⟨C10_score_bounds.2.1 (repText 100) (by decide),
   C10_score_bounds.2.2.1 (repText 15000) (by rw [assess_repText_15000]),
   C10_score_bounds.2.2.2.1 failFetch "https://www.newadvent.org/fathers" "timeout" rfl⟩
